import Mathlib

/-!
Verification development for the PPE ("EPI") inventory application in
`src/app.py`.  The data model (Epi, Funcionario, EntregaEpi, HistoricoEpi,
Log) and the route handlers that mutate it (`epis` POST, `editar_epi`,
`deletar_epi`, `entregar_epi`, `devolver_epi`, `descartar_epi`,
`deletar_funcionario`, `definir_senha_funcionario`) are shallowly embedded
as pure functions over an `AppState` record.  Form values arrive already
converted: strings are stripped, numeric fields are parsed integers
(Python `int(...)`), optional form fields are `Option`s where `none`
stands for a missing or empty (falsy) field.  Timestamps
(`datetime.utcnow()`) are abstracted as `Nat` parameters.  Each database
commit in the source corresponds to one pure state-to-state step; the
list `entregar_epi_durables` records the durable states after each of the
successive commits performed by the delivery handler.
-/

namespace ControleEpi

/-- Lifecycle status of a delivery: `entregue` / `devolvido` / `descartado`
(source: `EntregaEpi.status`, default `entregue`). -/
inductive Status where
  | entregue
  | devolvido
  | descartado
deriving DecidableEq, Repr

/-- PPE item (`class Epi`): name, product code, CA certificate number,
CA expiry stored as text in `DD/MM/YYYY` form, on-hand quantity, note. -/
structure Epi where
  id : Nat
  nome : String
  codigo_produto : String
  numero_ca : String
  validade_ca : String
  quantidade : Int
  observacao : String
deriving DecidableEq, Repr

/-- Employee (`class Funcionario`); `senha_validacao` is the nullable
delivery-validation secret, `data_admissao` an abstract day number. -/
structure Funcionario where
  id : Nat
  nome : String
  matricula : String
  setor : String
  data_admissao : Nat
  senha_validacao : Option String
deriving DecidableEq, Repr

/-- Delivery record (`class EntregaEpi`).  `data_entrega`,
`data_devolucao`, `data_descarte` are abstract timestamps. -/
structure EntregaEpi where
  id : Nat
  funcionario_id : Nat
  epi_id : Nat
  quantidade : Int
  data_entrega : Nat
  validade_entrega : Option Nat
  entregue_por : String
  status : Status
  observacao : Option String
  data_devolucao : Option Nat
  data_descarte : Option Nat
deriving DecidableEq, Repr

/-- Stock-movement audit record (`class HistoricoEpi`). -/
structure HistoricoEpi where
  epi_id : Nat
  acao : String
  quantidade : Int
  usuario : String
deriving DecidableEq, Repr

/-- Activity-log record (`class Log`). -/
structure LogEntry where
  usuario : String
  acao : String
deriving DecidableEq, Repr

/-- The durable database state: one list per table plus the autoincrement
counters for the ids the handlers reference. -/
structure AppState where
  epis : List Epi
  funcionarios : List Funcionario
  entregas : List EntregaEpi
  historicos : List HistoricoEpi
  logs : List LogEntry
  nextEpiId : Nat
  nextEntregaId : Nat
deriving DecidableEq, Repr

deriving instance DecidableEq for Except

/-- `Epi.query.get(id)`. -/
def findEpi (s : AppState) (id : Nat) : Option Epi :=
  s.epis.find? (fun e => e.id == id)

/-- `Funcionario.query.get(id)`. -/
def findFuncionario (s : AppState) (id : Nat) : Option Funcionario :=
  s.funcionarios.find? (fun f => f.id == id)

/-- `EntregaEpi.query.get(id)`. -/
def findEntrega (s : AppState) (id : Nat) : Option EntregaEpi :=
  s.entregas.find? (fun e => e.id == id)

/-- Mutating the uniquely-keyed row `id` in the `epi` table. -/
def updateEpi (s : AppState) (id : Nat) (g : Epi → Epi) : AppState :=
  { s with epis := s.epis.map (fun e => if e.id == id then g e else e) }

/-- Mutating the uniquely-keyed row `id` in the `entrega_epi` table. -/
def updateEntrega (s : AppState) (id : Nat) (g : EntregaEpi → EntregaEpi) : AppState :=
  { s with entregas := s.entregas.map (fun e => if e.id == id then g e else e) }

/-- Mutating the uniquely-keyed row `id` in the `funcionario` table. -/
def updateFuncionario (s : AppState) (id : Nat) (g : Funcionario → Funcionario) : AppState :=
  { s with funcionarios := s.funcionarios.map (fun f => if f.id == id then g f else f) }

/-- `registrar_historico(epi_id, acao, quantidade, usuario)`: appends one
`HistoricoEpi` row and commits. -/
def registrar_historico (s : AppState) (epi_id : Nat) (acao : String)
    (quantidade : Int) (usuario : String) : AppState :=
  { s with historicos := s.historicos ++
      [{ epi_id := epi_id
         acao := acao
         quantidade := quantidade
         usuario := usuario }] }

/-- `registrar_log(usuario, acao)`: appends one `Log` row and commits. -/
def registrar_log (s : AppState) (usuario acao : String) : AppState :=
  { s with logs := s.logs ++ [{ usuario := usuario, acao := acao }] }

/-- Python `request.form.get(k) or default` for string fields: a missing
field or an empty (falsy) string falls back to the current value. -/
def formOr (v : Option String) (dflt : String) : String :=
  match v with
  | none => dflt
  | some "" => dflt
  | some x => x

/-- The `epis` POST branch: register a new item.  Validation rejects an
empty name, empty CA expiry or a negative quantity (flash + redirect,
nothing written).  On success the item is inserted and committed, then
`registrar_historico` appends a `"Cadastro"` entry and `registrar_log`
an activity entry. -/
def cadastrar_epi (s : AppState) (nome codigo_produto numero_ca validade_ca : String)
    (quantidade : Int) (observacao usuario : String) : AppState :=
  if nome = "" ∨ validade_ca = "" ∨ quantidade < 0 then s
  else
    let novo : Epi :=
      { id := s.nextEpiId
        nome := nome
        codigo_produto := codigo_produto
        numero_ca := numero_ca
        validade_ca := validade_ca
        quantidade := quantidade
        observacao := observacao }
    let s1 := { s with epis := s.epis ++ [novo], nextEpiId := s.nextEpiId + 1 }
    let s2 := registrar_historico s1 novo.id "Cadastro" quantidade usuario
    registrar_log s2 usuario ("Cadastrou novo EPI: " ++ nome)

/-- `editar_epi(id)`: 404 (`none`) when the item is absent; otherwise every
field is overwritten with `form value or old value` — in particular the
quantity is replaced by whatever integer the form supplies, with **no
lower bound**.  A `"Ajuste de Estoque"` history entry with the signed
difference is appended only when the quantity changed. -/
def editar_epi (s : AppState) (id : Nat) (nome codigo_produto numero_ca validade_ca : Option String)
    (quantidade : Option Int) (observacao : Option String) (usuario : String) :
    Option AppState :=
  match findEpi s id with
  | none => none
  | some epi =>
    let quantidade_antiga := epi.quantidade
    let nova_quantidade := quantidade.getD epi.quantidade
    let s1 := updateEpi s id (fun e => { e with
      nome := formOr nome e.nome,
      codigo_produto := formOr codigo_produto e.codigo_produto,
      numero_ca := formOr numero_ca e.numero_ca,
      validade_ca := formOr validade_ca e.validade_ca,
      quantidade := quantidade.getD e.quantidade,
      observacao := formOr observacao e.observacao })
    let s2 := if nova_quantidade ≠ quantidade_antiga then
        registrar_historico s1 id "Ajuste de Estoque" (nova_quantidade - quantidade_antiga) usuario
      else s1
    some (registrar_log s2 usuario ("Editou EPI: " ++ formOr nome epi.nome))

/-- `deletar_epi(id)`: 404 when absent; otherwise a `"Exclusão"` history
entry (delta 0) and an activity-log entry are written first, then the item
is deleted and the cascade removes its deliveries and its whole history
(including the just-written deletion entry). -/
def deletar_epi (s : AppState) (id : Nat) (usuario : String) : Option AppState :=
  match findEpi s id with
  | none => none
  | some epi =>
    let s1 := registrar_historico s id "Exclusão" 0 usuario
    let s2 := registrar_log s1 usuario ("Excluiu EPI: " ++ epi.nome)
    some { s2 with
      epis := s2.epis.filter (fun e => e.id != id),
      entregas := s2.entregas.filter (fun e => e.epi_id != id),
      historicos := s2.historicos.filter (fun h => h.epi_id != id) }

/-- The delivery secret check of `entregar_epi`:
`(funcionario.senha_validacao or '') != senha` — a null stored secret is
compared as the empty string. -/
def senhaConfere (f : Funcionario) (senha : String) : Bool :=
  (f.senha_validacao.getD "") == senha

/-- Distinct failure messages of `entregar_epi`, in source order. -/
inductive EntregaErr where
  | funcionarioOuEpiInvalido
  | senhaIncorreta
  | quantidadeInvalida
  | estoqueInsuficiente
deriving DecidableEq, Repr

/-- The first commit of `entregar_epi`: the new `EntregaEpi` row (status
`entregue`) is inserted and the quantity of the item is decremented with a
clamp at 0 (`max(epi.quantidade - quantidade, 0)`), in one transaction. -/
def entregar_epi_commit1 (s : AppState) (funcionario : Funcionario) (epi : Epi)
    (quantidade : Int) (usuario : String) (validade_entrega : Option Nat)
    (observacao : String) (now : Nat) : AppState :=
  let nova : EntregaEpi := {
    id := s.nextEntregaId,
    funcionario_id := funcionario.id,
    epi_id := epi.id,
    quantidade := quantidade,
    data_entrega := now,
    validade_entrega := validade_entrega,
    entregue_por := usuario,
    status := Status.entregue,
    observacao := if observacao = "" then none else some observacao,
    data_devolucao := none,
    data_descarte := none }
  let s1 := updateEpi s epi.id (fun e => { e with quantidade := max (e.quantidade - quantidade) 0 })
  { s1 with entregas := s1.entregas ++ [nova], nextEntregaId := s.nextEntregaId + 1 }

/-- `entregar_epi` (POST): checks, in source order — employee and item
exist, validation secret matches, quantity positive, sufficient stock.
On success: first commit inserts the delivery and decrements the stock,
then `registrar_historico` appends an `"Entrega"` entry (second commit)
and `registrar_log` an activity entry (third commit). -/
def entregar_epi (s : AppState) (funcionario_id epi_id : Nat) (quantidade : Int)
    (senha : String) (validade_entrega : Option Nat) (observacao usuario : String)
    (now : Nat) : Except EntregaErr AppState :=
  match findFuncionario s funcionario_id, findEpi s epi_id with
  | some funcionario, some epi =>
    if senhaConfere funcionario senha = false then Except.error EntregaErr.senhaIncorreta
    else if quantidade ≤ 0 then Except.error EntregaErr.quantidadeInvalida
    else if epi.quantidade < quantidade then Except.error EntregaErr.estoqueInsuficiente
    else
      let s1 := entregar_epi_commit1 s funcionario epi quantidade usuario
        validade_entrega observacao now
      let s2 := registrar_historico s1 epi.id "Entrega" quantidade usuario
      Except.ok (registrar_log s2 usuario
        ("Entregou " ++ toString quantidade ++ "x " ++ epi.nome ++ " a " ++ funcionario.nome))
  | _, _ => Except.error EntregaErr.funcionarioOuEpiInvalido

/-- The durable states a crash can expose during `entregar_epi`: when any
check fails nothing is ever committed, otherwise the handler commits
three times (delivery + stock decrement, then history, then activity
log), so the intermediate states after the first and second commit are
durable. -/
def entregar_epi_durables (s : AppState) (funcionario_id epi_id : Nat) (quantidade : Int)
    (senha : String) (validade_entrega : Option Nat) (observacao usuario : String)
    (now : Nat) : List AppState :=
  match entregar_epi s funcionario_id epi_id quantidade senha validade_entrega observacao usuario now with
  | Except.error _ => [s]
  | Except.ok s3 =>
    match findFuncionario s funcionario_id, findEpi s epi_id with
    | some funcionario, some epi =>
      let s1 := entregar_epi_commit1 s funcionario epi quantidade usuario
        validade_entrega observacao now
      let s2 := registrar_historico s1 epi.id "Entrega" quantidade usuario
      [s, s1, s2, s3]
    | _, _ => [s]

/-- Failure modes of `devolver_epi` / `descartar_epi`.  `notFound` is the
`get_or_404`; `epiInvalido` models the unhandled `AttributeError` (HTTP
500, nothing committed) that `devolver_epi` would raise at
`epi.quantidade += qtd` if the item row of the delivery were gone. -/
inductive SettleErr where
  | notFound
  | jaFinalizada
  | quantidadeInvalida
  | epiInvalido
deriving DecidableEq, Repr

/-- `devolver_epi(entrega_id)`: rejects a finalized delivery, then a
non-positive or too-large quantity.  A full return (qtd equal to the
current delivery quantity) switches the status to `devolvido` and stamps
`data_devolucao`; in every successful case the delivery quantity is
overwritten with `qtd` and the item quantity is incremented by `qtd`,
all in one commit. -/
def devolver_epi (s : AppState) (entrega_id : Nat) (qtd : Int) (now : Nat) :
    Except SettleErr AppState :=
  match findEntrega s entrega_id with
  | none => Except.error SettleErr.notFound
  | some entrega =>
    if entrega.status = Status.devolvido ∨ entrega.status = Status.descartado then
      Except.error SettleErr.jaFinalizada
    else if qtd ≤ 0 ∨ entrega.quantidade < qtd then
      Except.error SettleErr.quantidadeInvalida
    else match findEpi s entrega.epi_id with
      | none => Except.error SettleErr.epiInvalido
      | some _ =>
        let s1 := updateEntrega s entrega_id (fun e =>
          { (if qtd == entrega.quantidade then
              { e with status := Status.devolvido, data_devolucao := some now }
            else e) with quantidade := qtd })
        Except.ok (updateEpi s1 entrega.epi_id (fun e => { e with quantidade := e.quantidade + qtd }))

/-- `descartar_epi(entrega_id)`: same checks as the return handler.  A
full discard switches the status to `descartado` and stamps
`data_descarte`; the delivery quantity is overwritten with `qtd`; the
item quantity is **not** touched. -/
def descartar_epi (s : AppState) (entrega_id : Nat) (qtd : Int) (now : Nat) :
    Except SettleErr AppState :=
  match findEntrega s entrega_id with
  | none => Except.error SettleErr.notFound
  | some entrega =>
    if entrega.status = Status.devolvido ∨ entrega.status = Status.descartado then
      Except.error SettleErr.jaFinalizada
    else if qtd ≤ 0 ∨ entrega.quantidade < qtd then
      Except.error SettleErr.quantidadeInvalida
    else
      Except.ok (updateEntrega s entrega_id (fun e =>
        { (if qtd == entrega.quantidade then
            { e with status := Status.descartado, data_descarte := some now }
          else e) with quantidade := qtd }))

/-- `deletar_funcionario(id)`: bulk-deletes the delivery rows of the employee,
deletes the employee, commits, then writes one activity-log entry.  Items
and the `historico_epi` table are untouched. -/
def deletar_funcionario (s : AppState) (id : Nat) (usuario : String) : Option AppState :=
  match findFuncionario s id with
  | none => none
  | some func =>
    let s1 := { s with
      entregas := s.entregas.filter (fun e => e.funcionario_id != id),
      funcionarios := s.funcionarios.filter (fun f => f.id != id) }
    some (registrar_log s1 usuario ("Excluiu funcionário: " ++ func.nome))

/-- `definir_senha_funcionario(id)`: stores
the `senha_validacao` form value with `or ''` — a missing or empty form
value stores the empty string, never null. -/
def definir_senha_funcionario (s : AppState) (id : Nat) (senha : Option String)
    (usuario : String) : Option AppState :=
  match findFuncionario s id with
  | none => none
  | some func =>
    let s1 := updateFuncionario s id (fun f => { f with senha_validacao := some (senha.getD "") })
    some (registrar_log s1 usuario ("Definiu senha de validação para " ++ func.nome))

/-!  Operation sequences (for the stock invariant). -/

/-- One user-visible mutating request, with the already-parsed form data as
arguments: register / edit / deliver / return / discard / delete item /
delete employee. -/
inductive Op where
  | cadastrar (nome codigo_produto numero_ca validade_ca : String)
      (quantidade : Int) (observacao usuario : String)
  | editar (id : Nat) (nome codigo_produto numero_ca validade_ca : Option String)
      (quantidade : Option Int) (observacao : Option String) (usuario : String)
  | entregar (funcionario_id epi_id : Nat) (quantidade : Int) (senha : String)
      (validade_entrega : Option Nat) (observacao usuario : String) (now : Nat)
  | devolver (entrega_id : Nat) (qtd : Int) (now : Nat)
  | descartar (entrega_id : Nat) (qtd : Int) (now : Nat)
  | deletarEpi (id : Nat) (usuario : String)
  | deletarFuncionario (id : Nat) (usuario : String)
deriving DecidableEq, Repr

/-- Runs one request against the store; a failed request (404, validation
error, insufficient stock, …) leaves the durable state unchanged. -/
def runOp (s : AppState) (op : Op) : AppState :=
  match op with
  | Op.cadastrar nome cp nca vca q ob u => cadastrar_epi s nome cp nca vca q ob u
  | Op.editar id nome cp nca vca q ob u => (editar_epi s id nome cp nca vca q ob u).getD s
  | Op.entregar fid eid q senha vd ob u now =>
      match entregar_epi s fid eid q senha vd ob u now with
      | Except.ok s' => s'
      | Except.error _ => s
  | Op.devolver id q now =>
      match devolver_epi s id q now with
      | Except.ok s' => s'
      | Except.error _ => s
  | Op.descartar id q now =>
      match descartar_epi s id q now with
      | Except.ok s' => s'
      | Except.error _ => s
  | Op.deletarEpi id u => (deletar_epi s id u).getD s
  | Op.deletarFuncionario id u => (deletar_funcionario s id u).getD s

/-- Runs a whole request sequence left to right. -/
def applyOps (s : AppState) (ops : List Op) : AppState :=
  ops.foldl runOp s

/-- The stock invariant of the spec: the on-hand quantity of every item is
non-negative. -/
def allNonneg (s : AppState) : Prop :=
  ∀ e ∈ s.epis, 0 ≤ e.quantidade

instance (s : AppState) : Decidable (allNonneg s) :=
  List.decidableBAll _ s.epis

/-- Holds when an edit request does not itself write a negative quantity
(the only handler that can: `editar_epi` stores the form integer with no
lower bound). -/
def editNonnegB (op : Op) : Bool :=
  match op with
  | Op.editar _ _ _ _ _ (some v) _ _ => decide (0 ≤ v)
  | _ => true

/-!  Expired-certificate computation (dashboard). -/

/-- A calendar date, ordered the way `datetime.date` orders dates. -/
structure DateD where
  year : Nat
  month : Nat
  day : Nat
deriving DecidableEq, Repr

/-- `datetime.date` comparison: lexicographic on (year, month, day). -/
def dateLt (a b : DateD) : Bool :=
  decide (a.year < b.year ∨ (a.year = b.year ∧
    (a.month < b.month ∨ (a.month = b.month ∧ a.day < b.day))))

/-- Gregorian leap-year rule, as `datetime` applies it. -/
def isLeap (y : Nat) : Bool :=
  y % 4 == 0 && (y % 100 != 0 || y % 400 == 0)

/-- Length of a month, as `datetime` validates the day. -/
def daysInMonth (y m : Nat) : Nat :=
  if m = 2 then (if isLeap y then 29 else 28)
  else if m = 4 ∨ m = 6 ∨ m = 9 ∨ m = 11 then 30
  else 31

/-- `datetime.strptime(s, "%d/%m/%Y").date()` on ASCII input: three
`/`-separated all-digit fields, the day and month at most two digits
(day 1–31, month 1–12), the year exactly four digits and at least 1
(`datetime.MINYEAR`), and the day within the month; anything else raises
`ValueError` (`none`). -/
def parseDateBR (s : String) : Option DateD :=
  match s.split (fun c => c == '/') with
  | [ds, ms, ys] =>
    match ds.toNat?, ms.toNat?, ys.toNat? with
    | some dv, some mv, some yv =>
      if ds.length ≤ 2 ∧ ms.length ≤ 2 ∧ ys.length = 4 ∧
         1 ≤ dv ∧ 1 ≤ mv ∧ mv ≤ 12 ∧ 1 ≤ yv ∧ dv ≤ daysInMonth yv mv then
        some { year := yv, month := mv, day := dv }
      else none
    | _, _, _ => none
  | _ => none

/-- The expired-item test of the dashboard: the CA expiry string parses and the
parsed date is strictly before today; a parse failure is swallowed by the
`except: pass`. -/
def epiVencido (e : Epi) (hoje : DateD) : Bool :=
  match parseDateBR e.validade_ca with
  | some validade => dateLt validade hoje
  | none => false

/-- The `vencidos` list of the dashboard: the items whose CA expiry is parsed
as `DD/MM/YYYY` and lies strictly before today. -/
def vencidos (epis : List Epi) (hoje : DateD) : List Epi :=
  epis.filter (fun e => epiVencido e hoje)

/-!  Concrete states used by witnesses and counterexamples. -/

/-- The freshly created database. -/
def emptyState : AppState :=
  { epis := [], funcionarios := [], entregas := [], historicos := [], logs := [],
    nextEpiId := 1, nextEntregaId := 1 }

/-- A registered employee with validation secret `"pw"`. -/
def baseFunc : Funcionario :=
  { id := 1, nome := "Eva", matricula := "M1", setor := "Obra", data_admissao := 0,
    senha_validacao := some "pw" }

/-- A registered item with 10 units on hand. -/
def baseEpi : Epi :=
  { id := 1, nome := "Capacete", codigo_produto := "C1", numero_ca := "CA1",
    validade_ca := "01/01/2030", quantidade := 10, observacao := "" }

/-- One employee, one item with stock 10, no deliveries yet. -/
def baseState : AppState :=
  { epis := [baseEpi], funcionarios := [baseFunc], entregas := [], historicos := [],
    logs := [], nextEpiId := 2, nextEntregaId := 1 }

/-- A delivery of `baseEpi` to `baseFunc` already returned (terminal). -/
def entregaDevolvida : EntregaEpi :=
  { id := 1, funcionario_id := 1, epi_id := 1, quantidade := 2, data_entrega := 10,
    validade_entrega := none, entregue_por := "admin", status := Status.devolvido,
    observacao := none, data_devolucao := some 20, data_descarte := none }

/-- `baseState` after that delivery was fully returned. -/
def finalizedState : AppState :=
  { baseState with entregas := [entregaDevolvida], nextEntregaId := 2 }

/-- The durable state after only the first commit of a delivery of 5 from
`baseState`: the delivery row exists and the stock is decremented, but no
history entry was written yet. -/
def partialDeliveryState : AppState :=
  entregar_epi_commit1 baseState baseFunc baseEpi 5 "admin" none "" 10

/-- The fully committed result of the same delivery. -/
def fullDeliveryState : AppState :=
  runOp baseState (Op.entregar 1 1 5 "pw" none "" "admin" 10)

/-- End-to-end scenario start: one employee, empty stock table. -/
def cenarioS0 : AppState := { emptyState with funcionarios := [baseFunc] }

/-- … after registering the item "Capacete" with quantity 20. -/
def cenarioS1 : AppState := cadastrar_epi cenarioS0 "Capacete" "" "CA1" "01/01/2030" 20 "" "admin"

/-- … after delivering 5 to the employee with the correct secret. -/
def cenarioS2 : AppState := runOp cenarioS1 (Op.entregar 1 1 5 "pw" none "" "admin" 10)

/-- … after returning 2 (partial). -/
def cenarioS3 : AppState := runOp cenarioS2 (Op.devolver 1 2 100)

/-- … after returning another 2 (now a full return of the remaining record
quantity). -/
def cenarioS4 : AppState := runOp cenarioS3 (Op.devolver 1 2 200)

/-- The delivery row as it stands in `cenarioS2`. -/
def cenarioEntrega : EntregaEpi :=
  { id := 1, funcionario_id := 1, epi_id := 1, quantidade := 5, data_entrega := 10,
    validade_entrega := none, entregue_por := "admin", status := Status.entregue,
    observacao := none, data_devolucao := none, data_descarte := none }

/-- The item row as it stands in `cenarioS2` (15 on hand). -/
def cenarioEpi : Epi :=
  { id := 1, nome := "Capacete", codigo_produto := "", numero_ca := "CA1",
    validade_ca := "01/01/2030", quantidade := 15, observacao := "" }

/-- An employee whose validation secret was never set (null). -/
def semSenhaFunc : Funcionario :=
  { baseFunc with senha_validacao := none }

/-- `baseState` with that secretless employee instead. -/
def semSenhaState : AppState :=
  { baseState with funcionarios := [semSenhaFunc] }

/-- The fields of a delivery row other than `quantidade`, `status` and
`data_descarte` — the ones a discard request must leave untouched. -/
def entregaFrame (e : EntregaEpi) :
    Nat × Nat × Nat × Nat × Option Nat × String × Option String × Option Nat :=
  (e.id, e.funcionario_id, e.epi_id, e.data_entrega, e.validade_entrega,
    e.entregue_por, e.observacao, e.data_devolucao)

/-!  Shared lemmas about row lookup and row update. -/

theorem find?_map_update {α : Type} (l : List α) (p : α → Bool) (g : α → α)
    (hg : ∀ a, p (g a) = p a) :
    (l.map (fun a => if p a then g a else a)).find? p = (l.find? p).map g := by
  induction l with
  | nil => rfl
  | cons a l ih =>
    simp only [List.map_cons]
    by_cases h : p a = true
    · rw [if_pos h, List.find?_cons_of_pos _ ((hg a).trans h),
        List.find?_cons_of_pos _ h]
      rfl
    · rw [if_neg h, List.find?_cons_of_neg _ (by simpa using h),
        List.find?_cons_of_neg _ (by simpa using h), ih]

theorem findEpi_updateEpi (s : AppState) (id : Nat) (g : Epi → Epi)
    (hg : ∀ e, (g e).id = e.id) :
    findEpi (updateEpi s id g) id = (findEpi s id).map g :=
  find?_map_update _ _ _ (fun e => by simp [hg])

theorem findEntrega_updateEntrega (s : AppState) (id : Nat) (g : EntregaEpi → EntregaEpi)
    (hg : ∀ e, (g e).id = e.id) :
    findEntrega (updateEntrega s id g) id = (findEntrega s id).map g :=
  find?_map_update _ _ _ (fun e => by simp [hg])

theorem findFuncionario_updateFuncionario (s : AppState) (id : Nat)
    (g : Funcionario → Funcionario) (hg : ∀ f, (g f).id = f.id) :
    findFuncionario (updateFuncionario s id g) id = (findFuncionario s id).map g :=
  find?_map_update _ _ _ (fun f => by simp [hg])

theorem findEpi_id {s : AppState} {id : Nat} {e : Epi}
    (h : findEpi s id = some e) : e.id = id := by
  unfold findEpi at h
  simpa using List.find?_some h

theorem findFuncionario_id {s : AppState} {id : Nat} {f : Funcionario}
    (h : findFuncionario s id = some f) : f.id = id := by
  unfold findFuncionario at h
  simpa using List.find?_some h

theorem findEntrega_id {s : AppState} {id : Nat} {e : EntregaEpi}
    (h : findEntrega s id = some e) : e.id = id := by
  unfold findEntrega at h
  simpa using List.find?_some h

/-!  Claim theorems. -/

/-- C8: for every set of items and every date `today`, the
expired-items computation returns exactly the items whose CA-expiry string
parses in day/month/year form to a date strictly before today; unparsable
strings and dates on or after today are excluded. -/
theorem c8_theorem (epis : List Epi) (hoje : DateD) (e : Epi) :
    e ∈ vencidos epis hoje ↔
      e ∈ epis ∧ ∃ d, parseDateBR e.validade_ca = some d ∧ dateLt d hoje = true := by
  unfold vencidos
  rw [List.mem_filter]
  refine and_congr_right fun _ => ?_
  unfold epiVencido
  cases h : parseDateBR e.validade_ca <;> simp [h]

/-- C7: a discard request — partial, full, rejected or against a missing
delivery — never changes the on-hand quantity of any item (items are untouched),
nor the history, employees or activity log, and changes at most the
`quantidade`, `status` and `data_descarte` fields of delivery rows. -/
theorem c7_theorem (s : AppState) (entrega_id : Nat) (qtd : Int) (now : Nat) :
    (runOp s (Op.descartar entrega_id qtd now)).epis = s.epis ∧
    (runOp s (Op.descartar entrega_id qtd now)).historicos = s.historicos ∧
    (runOp s (Op.descartar entrega_id qtd now)).funcionarios = s.funcionarios ∧
    (runOp s (Op.descartar entrega_id qtd now)).logs = s.logs ∧
    (runOp s (Op.descartar entrega_id qtd now)).entregas.map entregaFrame
      = s.entregas.map entregaFrame := by
  have key : ∀ s', descartar_epi s entrega_id qtd now = Except.ok s' →
      s'.epis = s.epis ∧ s'.historicos = s.historicos ∧ s'.funcionarios = s.funcionarios ∧
      s'.logs = s.logs ∧ s'.entregas.map entregaFrame = s.entregas.map entregaFrame := by
    intro s' h
    unfold descartar_epi at h
    split at h
    · exact absurd h (by simp)
    · split at h
      · exact absurd h (by simp)
      · split at h
        · exact absurd h (by simp)
        · rename_i ent _ _ _
          simp only [Except.ok.injEq] at h
          subst h
          refine ⟨rfl, rfl, rfl, rfl, ?_⟩
          unfold updateEntrega
          simp only [List.map_map]
          refine List.map_congr_left fun e _ => ?_
          by_cases hid : e.id = entrega_id <;>
            by_cases hq : qtd = ent.quantidade <;>
              simp [entregaFrame, hid, hq]
  simp only [runOp]
  cases h : descartar_epi s entrega_id qtd now with
  | error err => exact ⟨rfl, rfl, rfl, rfl, rfl⟩
  | ok s' => exact key s' h

/-- C10: deleting an existing employee removes exactly their delivery
rows, leaves every item (hence every on-hand quantity) and every
`HistoricoEpi` entry unchanged, and emits no history entry. -/
theorem c10_theorem (s : AppState) (id : Nat) (usuario : String) (f : Funcionario)
    (hf : findFuncionario s id = some f) :
    ∃ s', deletar_funcionario s id usuario = some s' ∧
      s'.entregas = s.entregas.filter (fun e => e.funcionario_id != id) ∧
      (∀ e ∈ s'.entregas, e.funcionario_id ≠ id) ∧
      s'.epis = s.epis ∧ s'.historicos = s.historicos := by
  have h : deletar_funcionario s id usuario
      = some (registrar_log { s with
          entregas := s.entregas.filter (fun e => e.funcionario_id != id),
          funcionarios := s.funcionarios.filter (fun fu => fu.id != id) }
          usuario ("Excluiu funcionário: " ++ f.nome)) := by
    unfold deletar_funcionario
    rw [hf]
  refine ⟨_, h, rfl, ?_, rfl, rfl⟩
  intro e he
  have hmem : e ∈ s.entregas.filter (fun e => e.funcionario_id != id) := he
  simpa using (List.mem_filter.mp hmem).2

/-- C10 witness: deleting the employee of `finalizedState` removes their
delivery and keeps items and history intact. -/
theorem c10_witness :
    ∃ s', deletar_funcionario finalizedState 1 "admin" = some s' ∧
      s'.entregas = finalizedState.entregas.filter (fun e => e.funcionario_id != 1) ∧
      (∀ e ∈ s'.entregas, e.funcionario_id ≠ 1) ∧
      s'.epis = finalizedState.epis ∧ s'.historicos = finalizedState.historicos :=
  c10_theorem finalizedState 1 "admin" baseFunc (by decide)

/-- C6: a return or discard request against a delivery that is already
`devolvido` or `descartado` fails with the already-finalized error and
changes nothing at all. -/
theorem c6_theorem (s : AppState) (entrega_id : Nat) (qtd : Int) (now : Nat)
    (ent : EntregaEpi) (hent : findEntrega s entrega_id = some ent)
    (hfin : ent.status = Status.devolvido ∨ ent.status = Status.descartado) :
    devolver_epi s entrega_id qtd now = Except.error SettleErr.jaFinalizada ∧
    descartar_epi s entrega_id qtd now = Except.error SettleErr.jaFinalizada ∧
    runOp s (Op.devolver entrega_id qtd now) = s ∧
    runOp s (Op.descartar entrega_id qtd now) = s := by
  have hd : devolver_epi s entrega_id qtd now = Except.error SettleErr.jaFinalizada := by
    unfold devolver_epi
    rw [hent]
    simp [hfin]
  have hc : descartar_epi s entrega_id qtd now = Except.error SettleErr.jaFinalizada := by
    unfold descartar_epi
    rw [hent]
    simp [hfin]
  refine ⟨hd, hc, ?_, ?_⟩ <;> simp only [runOp]
  · rw [hd]
  · rw [hc]

/-- C6 witness: against the already-returned delivery of `finalizedState`
both requests fail with the finalized error and mutate nothing. -/
theorem c6_witness :
    devolver_epi finalizedState 1 1 99 = Except.error SettleErr.jaFinalizada ∧
    descartar_epi finalizedState 1 1 99 = Except.error SettleErr.jaFinalizada ∧
    runOp finalizedState (Op.devolver 1 1 99) = finalizedState ∧
    runOp finalizedState (Op.descartar 1 1 99) = finalizedState :=
  c6_theorem finalizedState 1 1 99 entregaDevolvida (by decide) (by decide)

/-- C5: a delivery request of `q` against an item with on-hand stock
`n < q` (employee and item exist, the secret matches and `q > 0`, so the
stock check is the one that fires) fails with the insufficient-stock
error and leaves the whole state unchanged. -/
theorem c5_theorem (s : AppState) (fid eid : Nat) (q : Int) (senha : String)
    (vd : Option Nat) (ob usuario : String) (now : Nat) (f : Funcionario) (epi : Epi)
    (hf : findFuncionario s fid = some f) (he : findEpi s eid = some epi)
    (hsenha : senhaConfere f senha = true) (hq : 0 < q) (hstock : epi.quantidade < q) :
    entregar_epi s fid eid q senha vd ob usuario now
      = Except.error EntregaErr.estoqueInsuficiente ∧
    runOp s (Op.entregar fid eid q senha vd ob usuario now) = s := by
  have herr : entregar_epi s fid eid q senha vd ob usuario now
      = Except.error EntregaErr.estoqueInsuficiente := by
    simp only [entregar_epi, hf, he]
    rw [if_neg (by simp [hsenha]), if_neg (not_le.mpr hq), if_pos hstock]
  refine ⟨herr, ?_⟩
  simp only [runOp]
  rw [herr]

/-- C5 witness: requesting 11 of the 10 on hand in `baseState` fails with
the insufficient-stock error and changes nothing. -/
theorem c5_witness :
    entregar_epi baseState 1 1 11 "pw" none "" "admin" 10
      = Except.error EntregaErr.estoqueInsuficiente ∧
    runOp baseState (Op.entregar 1 1 11 "pw" none "" "admin" 10) = baseState :=
  c5_theorem baseState 1 1 11 "pw" none "" "admin" 10 baseFunc baseEpi
    (by decide) (by decide) (by decide) (by decide) (by decide)

/-- C4: a delivery of `q ≤ n` with all preconditions met sets the
quantity to exactly `n − q`, appends exactly one delivery row with status
`entregue` and quantity `q`, and appends exactly one `"Entrega"` history
entry with delta `q`. -/
theorem c4_theorem (s : AppState) (fid eid : Nat) (q : Int) (senha : String)
    (vd : Option Nat) (ob usuario : String) (now : Nat) (f : Funcionario) (epi : Epi)
    (hf : findFuncionario s fid = some f) (he : findEpi s eid = some epi)
    (hsenha : senhaConfere f senha = true) (hq : 0 < q) (hstock : q ≤ epi.quantidade) :
    ∃ s', entregar_epi s fid eid q senha vd ob usuario now = Except.ok s' ∧
      (findEpi s' eid).map Epi.quantidade = some (epi.quantidade - q) ∧
      s'.entregas = s.entregas ++
        [{ id := s.nextEntregaId
           funcionario_id := f.id
           epi_id := epi.id
           quantidade := q
           data_entrega := now
           validade_entrega := vd
           entregue_por := usuario
           status := Status.entregue
           observacao := if ob = "" then none else some ob
           data_devolucao := none
           data_descarte := none }] ∧
      s'.historicos = s.historicos ++
        [{ epi_id := epi.id
           acao := "Entrega"
           quantidade := q
           usuario := usuario }] := by
  have heid := findEpi_id he
  have hok : entregar_epi s fid eid q senha vd ob usuario now
      = Except.ok (registrar_log
          (registrar_historico (entregar_epi_commit1 s f epi q usuario vd ob now)
            epi.id "Entrega" q usuario)
          usuario
          ("Entregou " ++ toString q ++ "x " ++ epi.nome ++ " a " ++ f.nome)) := by
    simp only [entregar_epi, hf, he]
    rw [if_neg (by simp [hsenha]), if_neg (not_le.mpr hq), if_neg (not_lt.mpr hstock)]
  refine ⟨_, hok, ?_, rfl, rfl⟩
  subst heid
  have hfind : findEpi (registrar_log
      (registrar_historico (entregar_epi_commit1 s f epi q usuario vd ob now)
        epi.id "Entrega" q usuario)
      usuario
      ("Entregou " ++ toString q ++ "x " ++ epi.nome ++ " a " ++ f.nome)) epi.id
      = findEpi (updateEpi s epi.id
          (fun e => { e with quantidade := max (e.quantidade - q) 0 })) epi.id := rfl
  rw [hfind, findEpi_updateEpi s epi.id
    (fun e => { e with quantidade := max (e.quantidade - q) 0 }) (fun e => rfl), he]
  show some (max (epi.quantidade - q) 0) = some (epi.quantidade - q)
  rw [max_eq_left (sub_nonneg.mpr hstock)]

/-- C4 witness: delivering 3 of the 10 on hand in `baseState` leaves 7,
one `entregue` delivery row of 3 and one `"Entrega"` history entry of 3. -/
theorem c4_witness :
    ∃ s', entregar_epi baseState 1 1 3 "pw" none "" "admin" 10 = Except.ok s' ∧
      (findEpi s' 1).map Epi.quantidade = some 7 ∧
      s'.entregas = baseState.entregas ++
        [{ id := 1
           funcionario_id := 1
           epi_id := 1
           quantidade := 3
           data_entrega := 10
           validade_entrega := none
           entregue_por := "admin"
           status := Status.entregue
           observacao := none
           data_devolucao := none
           data_descarte := none }] ∧
      s'.historicos = baseState.historicos ++
        [{ epi_id := 1
           acao := "Entrega"
           quantidade := 3
           usuario := "admin" }] :=
  c4_theorem baseState 1 1 3 "pw" none "" "admin" 10 baseFunc baseEpi
    (by decide) (by decide) (by decide) (by decide) (by decide)

/-- C9: with employee and item present, the secret-mismatch error of the
deliver operation fires exactly when the supplied secret differs from the
stored secret with null read as the empty string; in particular for an
employee whose stored secret is unset or empty, the check passes exactly
for the empty supplied secret; and setting a secret from an empty form
value stores the empty string. -/
theorem c9_theorem :
    (∀ (s : AppState) (fid eid : Nat) (q : Int) (senha : String) (vd : Option Nat)
        (ob usuario : String) (now : Nat) (f : Funcionario) (epi : Epi),
      findFuncionario s fid = some f → findEpi s eid = some epi →
      (f.senha_validacao = none ∨ f.senha_validacao = some "") →
      (entregar_epi s fid eid q senha vd ob usuario now
          = Except.error EntregaErr.senhaIncorreta ↔ senha ≠ "")) ∧
    (∀ (s : AppState) (fid eid : Nat) (q : Int) (senha : String) (vd : Option Nat)
        (ob usuario : String) (now : Nat) (f : Funcionario) (epi : Epi),
      findFuncionario s fid = some f → findEpi s eid = some epi →
      (entregar_epi s fid eid q senha vd ob usuario now
          = Except.error EntregaErr.senhaIncorreta ↔ senha ≠ f.senha_validacao.getD "")) ∧
    (∀ (s : AppState) (id : Nat) (usuario : String) (f : Funcionario),
      findFuncionario s id = some f →
      ∃ s', definir_senha_funcionario s id none usuario = some s' ∧
        findFuncionario s' id = some { f with senha_validacao := some "" }) := by
  have main : ∀ (s : AppState) (fid eid : Nat) (q : Int) (senha : String) (vd : Option Nat)
      (ob usuario : String) (now : Nat) (f : Funcionario) (epi : Epi),
      findFuncionario s fid = some f → findEpi s eid = some epi →
      (entregar_epi s fid eid q senha vd ob usuario now
          = Except.error EntregaErr.senhaIncorreta ↔ senha ≠ f.senha_validacao.getD "") := by
    intro s fid eid q senha vd ob usuario now f epi hf he
    simp only [entregar_epi, hf, he]
    by_cases hs : senhaConfere f senha = false
    · rw [if_pos hs]
      have hne : f.senha_validacao.getD "" ≠ senha := by
        simpa [senhaConfere] using hs
      constructor
      · intro _ hEq
        exact hne hEq.symm
      · intro _
        rfl
    · have hs' : senhaConfere f senha = true := by
        simpa using hs
      have heq : f.senha_validacao.getD "" = senha := by
        simpa [senhaConfere] using hs'
      rw [if_neg hs]
      constructor
      · intro hcon
        split_ifs at hcon <;> cases hcon
      · intro hne
        exact absurd heq.symm hne
  refine ⟨?_, main, ?_⟩
  · intro s fid eid q senha vd ob usuario now f epi hf he hnull
    have heff : f.senha_validacao.getD "" = "" := by
      rcases hnull with h | h <;> simp [h]
    have h2 := main s fid eid q senha vd ob usuario now f epi hf he
    rw [heff] at h2
    exact h2
  · intro s id usuario f hf
    have h : definir_senha_funcionario s id none usuario
        = some (registrar_log
            (updateFuncionario s id
              (fun fu => { fu with senha_validacao := some ((none : Option String).getD "") }))
            usuario ("Definiu senha de validação para " ++ f.nome)) := by
      unfold definir_senha_funcionario
      rw [hf]
    refine ⟨_, h, ?_⟩
    have hfind : findFuncionario (registrar_log
        (updateFuncionario s id
          (fun fu => { fu with senha_validacao := some ((none : Option String).getD "") }))
        usuario ("Definiu senha de validação para " ++ f.nome)) id
        = findFuncionario (updateFuncionario s id
            (fun fu => { fu with senha_validacao := some ((none : Option String).getD "") })) id := rfl
    rw [hfind, findFuncionario_updateFuncionario s id
      (fun fu => { fu with senha_validacao := some ((none : Option String).getD "") })
      (fun fu => rfl), hf]
    rfl

/-- C9 witness: against the secretless employee of `semSenhaState`, a
non-empty supplied secret is exactly what triggers the mismatch error. -/
theorem c9_witness :
    entregar_epi semSenhaState 1 1 3 "x" none "" "admin" 10
      = Except.error EntregaErr.senhaIncorreta ↔ ("x" : String) ≠ "" :=
  c9_theorem.1 semSenhaState 1 1 3 "x" none "" "admin" 10 semSenhaFunc baseEpi
    (by decide) (by decide) (Or.inl rfl)

/-- C3: for a `delivered` delivery with current quantity `m` and a return
of `0 < r ≤ m`: when `r = m` the status becomes `devolvido` and the return
timestamp is recorded (otherwise status and timestamp are untouched); in
all cases the quantity field of the delivery is overwritten to `r` and the
stock of the item grows by `r`.  And the end-to-end scenario holds: register
qty 20, deliver 5 (item 15), return 2 (status still `entregue`, delivery
quantity 2, item 17), return 2 (status `devolvido`, delivery quantity 2,
item 19). -/
theorem c3_theorem :
    (∀ (s : AppState) (entrega_id : Nat) (r : Int) (now : Nat)
        (ent : EntregaEpi) (epi : Epi),
      findEntrega s entrega_id = some ent →
      findEpi s ent.epi_id = some epi →
      ent.status = Status.entregue →
      0 < r → r ≤ ent.quantidade →
      ∃ s', devolver_epi s entrega_id r now = Except.ok s' ∧
        ∃ ent', findEntrega s' entrega_id = some ent' ∧
          ent'.quantidade = r ∧
          (r = ent.quantidade →
            ent'.status = Status.devolvido ∧ ent'.data_devolucao = some now) ∧
          (r ≠ ent.quantidade →
            ent'.status = ent.status ∧ ent'.data_devolucao = ent.data_devolucao) ∧
          ∃ epi', findEpi s' ent.epi_id = some epi' ∧
            epi'.quantidade = epi.quantidade + r) ∧
    ((findEpi cenarioS1 1).map Epi.quantidade = some 20 ∧
     entregar_epi cenarioS1 1 1 5 "pw" none "" "admin" 10 = Except.ok cenarioS2 ∧
     (findEpi cenarioS2 1).map Epi.quantidade = some 15 ∧
     (findEntrega cenarioS2 1).map EntregaEpi.quantidade = some 5 ∧
     (findEntrega cenarioS2 1).map EntregaEpi.status = some Status.entregue ∧
     devolver_epi cenarioS2 1 2 100 = Except.ok cenarioS3 ∧
     (findEpi cenarioS3 1).map Epi.quantidade = some 17 ∧
     (findEntrega cenarioS3 1).map EntregaEpi.quantidade = some 2 ∧
     (findEntrega cenarioS3 1).map EntregaEpi.status = some Status.entregue ∧
     devolver_epi cenarioS3 1 2 200 = Except.ok cenarioS4 ∧
     (findEpi cenarioS4 1).map Epi.quantidade = some 19 ∧
     (findEntrega cenarioS4 1).map EntregaEpi.quantidade = some 2 ∧
     (findEntrega cenarioS4 1).map EntregaEpi.status = some Status.devolvido ∧
     (findEntrega cenarioS4 1).map EntregaEpi.data_devolucao = some (some 200)) := by
  constructor
  · intro s entrega_id r now ent epi hent hepi hstatus h0r hrm
    have hok : devolver_epi s entrega_id r now
        = Except.ok (updateEpi
            (updateEntrega s entrega_id (fun e =>
              { (if r == ent.quantidade then
                  { e with status := Status.devolvido, data_devolucao := some now }
                else e) with quantidade := r }))
            ent.epi_id (fun e => { e with quantidade := e.quantidade + r })) := by
      simp only [devolver_epi, hent]
      rw [if_neg (by simp [hstatus]), if_neg (by push_neg; exact ⟨h0r, hrm⟩), hepi]
    refine ⟨_, hok, ?_⟩
    have hu : ∀ e : EntregaEpi,
        ({ (if r == ent.quantidade then
             { e with status := Status.devolvido, data_devolucao := some now }
           else e) with quantidade := r } : EntregaEpi).id = e.id := by
      intro e
      cases hc : (r == ent.quantidade) <;> simp [hc]
    have hent' : findEntrega (updateEpi
        (updateEntrega s entrega_id (fun e =>
          { (if r == ent.quantidade then
              { e with status := Status.devolvido, data_devolucao := some now }
            else e) with quantidade := r }))
        ent.epi_id (fun e => { e with quantidade := e.quantidade + r })) entrega_id
        = findEntrega (updateEntrega s entrega_id (fun e =>
            { (if r == ent.quantidade then
                { e with status := Status.devolvido, data_devolucao := some now }
              else e) with quantidade := r })) entrega_id := rfl
    refine ⟨{ (if r == ent.quantidade then
        { ent with status := Status.devolvido, data_devolucao := some now }
      else ent) with quantidade := r }, ?_, rfl, ?_, ?_, ?_⟩
    · rw [hent', findEntrega_updateEntrega s entrega_id _ hu, hent]
      rfl
    · intro hfull
      constructor <;> simp [hfull]
    · intro hpart
      have hc : (r == ent.quantidade) = false := by
        simpa using hpart
      constructor <;> simp [hc]
    · have hepi' : findEpi (updateEpi
          (updateEntrega s entrega_id (fun e =>
            { (if r == ent.quantidade then
                { e with status := Status.devolvido, data_devolucao := some now }
              else e) with quantidade := r }))
          ent.epi_id (fun e => { e with quantidade := e.quantidade + r })) ent.epi_id
          = (findEpi s ent.epi_id).map (fun e => { e with quantidade := e.quantidade + r }) :=
        findEpi_updateEpi _ ent.epi_id
          (fun e => { e with quantidade := e.quantidade + r }) (fun e => rfl)
      refine ⟨{ epi with quantidade := epi.quantidade + r }, ?_, rfl⟩
      rw [hepi', hepi]
      rfl
  · decide

/-- C3 witness: returning 3 of the 5 outstanding in `cenarioS2` is a
partial return — status stays `entregue`, delivery quantity becomes 3 and
the stock of the item grows from 15 to 18. -/
theorem c3_witness :
    ∃ s', devolver_epi cenarioS2 1 3 50 = Except.ok s' ∧
      ∃ ent', findEntrega s' 1 = some ent' ∧
        ent'.quantidade = 3 ∧
        ((3 : Int) = cenarioEntrega.quantidade →
          ent'.status = Status.devolvido ∧ ent'.data_devolucao = some 50) ∧
        ((3 : Int) ≠ cenarioEntrega.quantidade →
          ent'.status = cenarioEntrega.status ∧
          ent'.data_devolucao = cenarioEntrega.data_devolucao) ∧
        ∃ epi', findEpi s' cenarioEntrega.epi_id = some epi' ∧
          epi'.quantidade = cenarioEpi.quantidade + 3 :=
  c3_theorem.1 cenarioS2 1 3 50 cenarioEntrega cenarioEpi
    (by decide) (by decide) (by decide) (by decide) (by decide)

/-- C2 counterexample: delivering 5 from `baseState`, the durable state
after the first commit of the handler (`partialDeliveryState`) contains the
new delivery row and the stock decrement but no `"Entrega"` history
entry, and differs from both the initial and the fully committed state —
so a failure between the first and second commit leaves exactly the
partial state the claim rules out. -/
theorem c2_counterexample :
    partialDeliveryState ∈ entregar_epi_durables baseState 1 1 5 "pw" none "" "admin" 10 ∧
    partialDeliveryState.entregas.length = baseState.entregas.length + 1 ∧
    (findEpi partialDeliveryState 1).map Epi.quantidade = some 5 ∧
    (∀ h ∈ partialDeliveryState.historicos, h.acao ≠ "Entrega") ∧
    entregar_epi baseState 1 1 5 "pw" none "" "admin" 10 = Except.ok fullDeliveryState ∧
    (∃ h ∈ fullDeliveryState.historicos, h.acao = "Entrega") ∧
    partialDeliveryState ≠ baseState ∧
    partialDeliveryState ≠ fullDeliveryState := by decide

/-- C2 as amended: within one delivery request the delivery-row insertion
and the stock decrement are a single atomic commit — every durable state
either is the pre-state or agrees with the fully committed post-state on
both the delivery ledger and the stock table — but the `"Entrega"`
history entry is a separate later commit, so its absence is the only
divergence a crash can expose (a history entry without its delivery row
is impossible). -/
theorem c2_theorem (s : AppState) (fid eid : Nat) (q : Int) (senha : String)
    (vd : Option Nat) (ob usuario : String) (now : Nat) (d : AppState)
    (hd : d ∈ entregar_epi_durables s fid eid q senha vd ob usuario now) :
    d = s ∨
    (∃ sf, entregar_epi s fid eid q senha vd ob usuario now = Except.ok sf ∧
      d.entregas = sf.entregas ∧ d.epis = sf.epis ∧
      (d.historicos = s.historicos ∨ d.historicos = sf.historicos)) := by
  unfold entregar_epi_durables at hd
  cases hres : entregar_epi s fid eid q senha vd ob usuario now with
  | error err =>
      rw [hres] at hd
      simp only [List.mem_singleton] at hd
      exact Or.inl hd
  | ok s3 =>
      rw [hres] at hd
      cases hfb : findFuncionario s fid with
      | none =>
          rw [hfb] at hd
          simp only [List.mem_singleton] at hd
          exact Or.inl hd
      | some funcionario =>
          cases heb : findEpi s eid with
          | none =>
              rw [hfb, heb] at hd
              simp only [List.mem_singleton] at hd
              exact Or.inl hd
          | some epi =>
              rw [hfb, heb] at hd
              simp only [List.mem_cons, List.mem_singleton, List.not_mem_nil,
                or_false] at hd
              have hs3 : s3 = registrar_log
                  (registrar_historico
                    (entregar_epi_commit1 s funcionario epi q usuario vd ob now)
                    epi.id "Entrega" q usuario)
                  usuario
                  ("Entregou " ++ toString q ++ "x " ++ epi.nome
                    ++ " a " ++ funcionario.nome) := by
                have hres' := hres
                simp only [entregar_epi, hfb, heb] at hres'
                split_ifs at hres'
                all_goals
                  first
                    | exact Except.noConfusion hres'
                    | (injection hres' with h
                       exact h.symm)
              rcases hd with rfl | rfl | rfl | rfl
              · exact Or.inl rfl
              · refine Or.inr ⟨s3, rfl, ?_, ?_, Or.inl rfl⟩
                · rw [hs3]
                  rfl
                · rw [hs3]
                  rfl
              · refine Or.inr ⟨s3, rfl, ?_, ?_, Or.inr ?_⟩
                · rw [hs3]
                  rfl
                · rw [hs3]
                  rfl
                · rw [hs3]
                  rfl
              · exact Or.inr ⟨d, rfl, rfl, rfl, Or.inr rfl⟩

/-- C2 witness: the partial durable state of the `baseState` delivery
satisfies the amended disjunction (it agrees with the post-state on the
ledger and the stock table while its history still equals the pre-state history). -/
theorem c2_witness :
    partialDeliveryState = baseState ∨
    (∃ sf, entregar_epi baseState 1 1 5 "pw" none "" "admin" 10 = Except.ok sf ∧
      partialDeliveryState.entregas = sf.entregas ∧
      partialDeliveryState.epis = sf.epis ∧
      (partialDeliveryState.historicos = baseState.historicos ∨
        partialDeliveryState.historicos = sf.historicos)) :=
  c2_theorem baseState 1 1 5 "pw" none "" "admin" 10 partialDeliveryState (by decide)

/-!  Preservation of the stock invariant, handler by handler. -/

theorem epis_registrar_historico (s : AppState) (i : Nat) (a : String) (q : Int)
    (u : String) : (registrar_historico s i a q u).epis = s.epis := rfl

theorem epis_registrar_log (s : AppState) (u a : String) :
    (registrar_log s u a).epis = s.epis := rfl

theorem cadastrar_epi_nonneg (s : AppState) (n cp nca vca : String) (q : Int)
    (ob u : String) (h : allNonneg s) : allNonneg (cadastrar_epi s n cp nca vca q ob u) := by
  unfold cadastrar_epi
  split
  · exact h
  · rename_i hcond
    have hq : 0 ≤ q := not_lt.mp fun hlt => hcond (Or.inr (Or.inr hlt))
    intro e he
    have he' : e ∈ s.epis ++
        [{ id := s.nextEpiId
           nome := n
           codigo_produto := cp
           numero_ca := nca
           validade_ca := vca
           quantidade := q
           observacao := ob }] := he
    rcases List.mem_append.mp he' with h1 | h2
    · exact h e h1
    · rw [List.mem_singleton.mp h2]
      exact hq

theorem editar_epi_nonneg (s : AppState) (id : Nat) (n cp nca vca : Option String)
    (q : Option Int) (ob : Option String) (u : String) (s' : AppState)
    (hok : editar_epi s id n cp nca vca q ob u = some s')
    (hq : ∀ v, q = some v → 0 ≤ v) (h : allNonneg s) : allNonneg s' := by
  unfold editar_epi at hok
  split at hok
  · cases hok
  · rename_i epi hepi
    injection hok with hok
    subst hok
    intro e he
    rw [epis_registrar_log, apply_ite AppState.epis, epis_registrar_historico,
      ite_self] at he
    simp only [updateEpi] at he
    rcases List.mem_map.mp he with ⟨a, ha, rfl⟩
    by_cases hid : (a.id == id) = true <;> simp only [hid, if_pos, if_neg,
      Bool.false_eq_true, not_false_iff, ite_true, ite_false]
    · cases hv : q with
      | none => simpa [hv] using h a ha
      | some v => simpa [hv] using hq v hv
    · exact h a ha

theorem entregar_epi_nonneg (s : AppState) (fid eid : Nat) (q : Int) (senha : String)
    (vd : Option Nat) (ob usuario : String) (now : Nat) (s' : AppState)
    (hok : entregar_epi s fid eid q senha vd ob usuario now = Except.ok s')
    (h : allNonneg s) : allNonneg s' := by
  unfold entregar_epi at hok
  split at hok
  · rename_i funcionario epi _ _
    split_ifs at hok
    injection hok with hok
    subst hok
    intro e he
    rw [epis_registrar_log, epis_registrar_historico] at he
    have he' : e ∈ (updateEpi s epi.id
        (fun x => { x with quantidade := max (x.quantidade - q) 0 })).epis := he
    simp only [updateEpi] at he'
    rcases List.mem_map.mp he' with ⟨a, ha, rfl⟩
    by_cases hid : (a.id == epi.id) = true <;> simp only [hid, ite_true,
      Bool.false_eq_true, ite_false]
    · exact le_max_right _ 0
    · exact h a ha
  · exact Except.noConfusion hok

theorem devolver_epi_nonneg (s : AppState) (id : Nat) (qtd : Int) (now : Nat)
    (s' : AppState) (hok : devolver_epi s id qtd now = Except.ok s')
    (h : allNonneg s) : allNonneg s' := by
  unfold devolver_epi at hok
  split at hok
  · exact Except.noConfusion hok
  · rename_i entrega hent
    split at hok
    · exact Except.noConfusion hok
    · split at hok
      · exact Except.noConfusion hok
      · rename_i h2
        split at hok
        · exact Except.noConfusion hok
        · injection hok with hok
          subst hok
          have hqt : 0 < qtd := by
            push_neg at h2
            exact h2.1
          intro e he
          simp only [updateEpi, updateEntrega] at he
          rcases List.mem_map.mp he with ⟨a, ha, rfl⟩
          by_cases hid : (a.id == entrega.epi_id) = true <;> simp only [hid, ite_true,
            Bool.false_eq_true, ite_false]
          · exact add_nonneg (h a ha) hqt.le
          · exact h a ha

theorem descartar_epi_nonneg (s : AppState) (id : Nat) (qtd : Int) (now : Nat)
    (s' : AppState) (hok : descartar_epi s id qtd now = Except.ok s')
    (h : allNonneg s) : allNonneg s' := by
  unfold descartar_epi at hok
  split at hok
  · exact Except.noConfusion hok
  · split at hok
    · exact Except.noConfusion hok
    · split at hok
      · exact Except.noConfusion hok
      · injection hok with hok
        subst hok
        intro e he
        exact h e he

theorem deletar_epi_nonneg (s : AppState) (id : Nat) (u : String) (s' : AppState)
    (hok : deletar_epi s id u = some s') (h : allNonneg s) : allNonneg s' := by
  unfold deletar_epi at hok
  split at hok
  · cases hok
  · injection hok with hok
    subst hok
    intro e he
    have he' : e ∈ s.epis.filter (fun x => x.id != id) := he
    exact h e (List.mem_filter.mp he').1

theorem deletar_funcionario_nonneg (s : AppState) (id : Nat) (u : String) (s' : AppState)
    (hok : deletar_funcionario s id u = some s') (h : allNonneg s) : allNonneg s' := by
  unfold deletar_funcionario at hok
  split at hok
  · cases hok
  · injection hok with hok
    subst hok
    intro e he
    exact h e he

theorem runOp_nonneg (s : AppState) (op : Op) (h : allNonneg s)
    (hop : editNonnegB op = true) : allNonneg (runOp s op) := by
  cases op with
  | cadastrar n cp nca vca q ob u => exact cadastrar_epi_nonneg s n cp nca vca q ob u h
  | editar id n cp nca vca q ob u =>
      simp only [runOp]
      cases hok : editar_epi s id n cp nca vca q ob u with
      | none => exact h
      | some s' =>
          refine editar_epi_nonneg s id n cp nca vca q ob u s' hok ?_ h
          intro v hv
          subst hv
          exact of_decide_eq_true (by simpa [editNonnegB] using hop)
  | entregar fid eid q senha vd ob u now =>
      simp only [runOp]
      cases hok : entregar_epi s fid eid q senha vd ob u now with
      | error err => exact h
      | ok s' => exact entregar_epi_nonneg s fid eid q senha vd ob u now s' hok h
  | devolver id qtd now =>
      simp only [runOp]
      cases hok : devolver_epi s id qtd now with
      | error err => exact h
      | ok s' => exact devolver_epi_nonneg s id qtd now s' hok h
  | descartar id qtd now =>
      simp only [runOp]
      cases hok : descartar_epi s id qtd now with
      | error err => exact h
      | ok s' => exact descartar_epi_nonneg s id qtd now s' hok h
  | deletarEpi id u =>
      simp only [runOp]
      cases hok : deletar_epi s id u with
      | none => exact h
      | some s' => exact deletar_epi_nonneg s id u s' hok h
  | deletarFuncionario id u =>
      simp only [runOp]
      cases hok : deletar_funcionario s id u with
      | none => exact h
      | some s' => exact deletar_funcionario_nonneg s id u s' hok h

/-- C1 counterexample: starting from the empty database, registering an
item with quantity 5 (a valid non-negative registration) and then editing
it with form quantity −3 — a sequence of operations of the claim — leaves
the item with on-hand quantity −3, so the invariant is violated. -/
theorem c1_counterexample :
    allNonneg emptyState ∧
    ¬ allNonneg (applyOps emptyState
      [Op.cadastrar "Capacete" "C1" "CA1" "01/01/2030" 5 "" "admin",
       Op.editar 1 none none none none (some (-3)) none "admin"]) := by decide

/-- C1 as amended: over every sequence of register / edit / deliver /
return / discard / delete operations in which each edit supplies a
non-negative quantity (the one handler that writes the form value with no
lower bound), the on-hand quantity of every item stays non-negative. -/
theorem c1_theorem (ops : List Op) (s : AppState) (h0 : allNonneg s)
    (h1 : ∀ op ∈ ops, editNonnegB op = true) : allNonneg (applyOps s ops) := by
  induction ops generalizing s with
  | nil => exact h0
  | cons op ops ih =>
      have hstep := runOp_nonneg s op h0 (h1 op (List.mem_cons_self op ops))
      exact ih (runOp s op) hstep (fun o ho => h1 o (List.mem_cons_of_mem op ho))

/-- C1 witness: a full lifecycle — register 20, edit to 8, deliver 5,
return 2, discard 2, delete the employee and the item — keeps every
quantity non-negative. -/
theorem c1_witness :
    allNonneg (applyOps cenarioS0
      [Op.cadastrar "Capacete" "C1" "CA1" "01/01/2030" 20 "" "admin",
       Op.editar 1 none none none none (some 8) none "admin",
       Op.entregar 1 1 5 "pw" none "" "admin" 10,
       Op.devolver 1 2 100,
       Op.descartar 1 2 200,
       Op.deletarFuncionario 1 "admin",
       Op.deletarEpi 1 "admin"]) :=
  c1_theorem
    [Op.cadastrar "Capacete" "C1" "CA1" "01/01/2030" 20 "" "admin",
     Op.editar 1 none none none none (some 8) none "admin",
     Op.entregar 1 1 5 "pw" none "" "admin" 10,
     Op.devolver 1 2 100,
     Op.descartar 1 2 200,
     Op.deletarFuncionario 1 "admin",
     Op.deletarEpi 1 "admin"]
    cenarioS0 (by decide) (by decide)

end ControleEpi
